import Mathlib

set_option autoImplicit false

/-!
Shallow embedding of the chatbot server (final revision: the Express server with
SQLite persistence) together with its database layer. Pure data is modelled with
Lean structures, the SQLite tables with lists of rows, SQL timestamps with `Nat`,
and the fallible external world (model API, image services, filesystem, store
rejections) with explicit environment records. Theorems at the end settle the
frozen behavioural claims against these definitions.
-/

/-! ## String and list helpers -/

/-- Substring containment, stated on the underlying character lists. -/
def containsStr (s t : String) : Prop :=
  ∃ pre post : List Char, s.data = pre ++ t.data ++ post

/-- Executable substring test (JavaScript `regex.test` with an alternation of
literal tokens is a substring check for each token). -/
def strContainsB (s pat : String) : Bool :=
  (List.range (s.data.length + 1)).any
    (fun i => (s.data.drop i).take pat.data.length == pat.data)

/-- Character-wise lower casing, modelling JavaScript `toLowerCase` on the
ASCII file extensions it is applied to. -/
def toLowerStr (s : String) : String :=
  String.mk (s.data.map Char.toLower)

/-- Prefix test on the underlying character lists (JavaScript startsWith). -/
def startsWithStr (s pre : String) : Bool :=
  s.data.take pre.data.length == pre.data

/-- First n characters of a string (JavaScript substring from zero). -/
def takeStr (s : String) (n : Nat) : String :=
  String.mk (s.data.take n)

/-- Model of Node `path.extname` for ordinary file names (no directory
separators): the suffix starting at the last dot, empty when there is no dot or
the only dot is the leading character. -/
def extname (s : String) : String :=
  let rev := s.data.reverse
  let after := rev.takeWhile (fun c => c ≠ '.')
  if after.length = rev.length then ""
  else if after.length + 1 = rev.length then ""
  else String.mk ('.' :: after.reverse)

/-! ## Data model: the five SQLite tables -/

/-- Row of the `users` table. -/
structure UserRow where
  id : Nat
  session_id : String
  created_at : Nat
  last_active : Nat
deriving Repr, DecidableEq

/-- Row of the `conversations` table. -/
structure ConversationRow where
  id : Nat
  session_id : String
  message : String
  response : String
  timestamp : Nat
deriving Repr, DecidableEq

/-- Row of the `chat_messages` table. -/
structure ChatMessage where
  id : Nat
  session_id : String
  role : String
  content : String
  timestamp : Nat
deriving Repr, DecidableEq

/-- Row of the `file_uploads` table. -/
structure FileUploadRow where
  id : Nat
  session_id : String
  filename : String
  original_name : String
  file_path : String
  file_size : Nat
  mime_type : String
  upload_timestamp : Nat
deriving Repr, DecidableEq

/-- Row of the `generated_images` table; `image_path` is nullable in the schema
and `saveGeneratedImage` may store `null` there. -/
structure GeneratedImageRow where
  id : Nat
  session_id : String
  prompt : String
  image_path : Option String
  generation_timestamp : Nat
deriving Repr, DecidableEq

/-- The persistent store: the five tables plus their AUTOINCREMENT counters. -/
structure DBState where
  users : List UserRow
  conversations : List ConversationRow
  chat_messages : List ChatMessage
  file_uploads : List FileUploadRow
  generated_images : List GeneratedImageRow
  nextUserId : Nat
  nextConversationId : Nat
  nextChatMessageId : Nat
  nextFileUploadId : Nat
  nextGeneratedImageId : Nat
deriving Repr, DecidableEq

/-! ## Ordering of chat messages by timestamp (SQL `ORDER BY timestamp ASC`) -/

/-- Comparison relation used by `ORDER BY timestamp ASC`. -/
def tsLe (a b : ChatMessage) : Prop :=
  a.timestamp ≤ b.timestamp

instance : DecidableRel tsLe :=
  fun a b => Nat.decLe a.timestamp b.timestamp

instance : IsTotal ChatMessage tsLe :=
  ⟨fun a b => Nat.le_total a.timestamp b.timestamp⟩

instance : IsTrans ChatMessage tsLe :=
  ⟨fun _ _ _ hab hbc => Nat.le_trans hab hbc⟩

/-! ## Database operations (`database.js`) -/

/-- Database.createOrGetUser: select the row with this session id; when found,
update its `last_active` and resolve with the row as read; otherwise insert a
fresh row. The `session_id` column is UNIQUE, so at most one row matches. -/
def createOrGetUser (db : DBState) (now : Nat) (sessionId : String) :
    DBState × UserRow :=
  match db.users.find? (fun u => u.session_id == sessionId) with
  | some row =>
      ({ db with
          users := db.users.map
            (fun u => if u.session_id == sessionId
                      then { u with last_active := now } else u) },
       row)
  | none =>
      let newRow : UserRow :=
        { id := db.nextUserId, session_id := sessionId,
          created_at := now, last_active := now }
      ({ db with users := db.users ++ [newRow],
                 nextUserId := db.nextUserId + 1 },
       newRow)

/-- Database.saveConversation: INSERT INTO conversations. -/
def saveConversation (db : DBState) (now : Nat)
    (sessionId userMessage botResponse : String) : DBState :=
  { db with
      conversations := db.conversations ++
        [{ id := db.nextConversationId, session_id := sessionId,
           message := userMessage, response := botResponse, timestamp := now }],
      nextConversationId := db.nextConversationId + 1 }

/-- Database.saveChatMessage: INSERT INTO chat_messages. -/
def saveChatMessage (db : DBState) (now : Nat)
    (sessionId role content : String) : DBState :=
  { db with
      chat_messages := db.chat_messages ++
        [{ id := db.nextChatMessageId, session_id := sessionId,
           role := role, content := content, timestamp := now }],
      nextChatMessageId := db.nextChatMessageId + 1 }

/-- Database.getConversationHistory: SELECT from chat_messages WHERE the
session id matches, ORDER BY timestamp ASC, LIMIT the given count. -/
def getConversationHistory (db : DBState) (sessionId : String)
    (limit : Nat := 20) : List ChatMessage :=
  ((db.chat_messages.filter
      (fun m => m.session_id == sessionId)).insertionSort tsLe).take limit

/-- Comparison relation for `ORDER BY timestamp ASC` on conversations. -/
def convTsLe (a b : ConversationRow) : Prop :=
  a.timestamp ≤ b.timestamp

instance : DecidableRel convTsLe :=
  fun a b => Nat.decLe a.timestamp b.timestamp

instance : IsTotal ConversationRow convTsLe :=
  ⟨fun a b => Nat.le_total a.timestamp b.timestamp⟩

instance : IsTrans ConversationRow convTsLe :=
  ⟨fun _ _ _ hab hbc => Nat.le_trans hab hbc⟩

/-- Comparison relation for `ORDER BY upload_timestamp DESC` on file uploads. -/
def fileTsGe (a b : FileUploadRow) : Prop :=
  b.upload_timestamp ≤ a.upload_timestamp

instance : DecidableRel fileTsGe :=
  fun a b => Nat.decLe b.upload_timestamp a.upload_timestamp

instance : IsTotal FileUploadRow fileTsGe :=
  ⟨fun a b => (Nat.le_total b.upload_timestamp a.upload_timestamp)⟩

instance : IsTrans FileUploadRow fileTsGe :=
  ⟨fun _ _ _ hab hbc => Nat.le_trans hbc hab⟩

/-- Database.getSessionConversations: SELECT from conversations WHERE the
session id matches, ORDER BY timestamp ASC. -/
def getSessionConversations (db : DBState) (sessionId : String) :
    List ConversationRow :=
  (db.conversations.filter (fun c => c.session_id == sessionId)).insertionSort
    convTsLe

/-- Database.clearSessionHistory: DELETE from chat_messages and conversations
for the session; the resolved `deletedRows` is `this.changes` of the final
statement, the conversations delete. -/
def clearSessionHistory (db : DBState) (sessionId : String) : DBState × Nat :=
  ({ db with
      chat_messages :=
        db.chat_messages.filter (fun m => !(m.session_id == sessionId)),
      conversations :=
        db.conversations.filter (fun c => !(c.session_id == sessionId)) },
   (db.conversations.filter (fun c => c.session_id == sessionId)).length)

/-- Database.saveFileUpload: INSERT INTO file_uploads. -/
def saveFileUpload (db : DBState) (now : Nat)
    (sessionId filename originalName filePath : String)
    (fileSize : Nat) (mimeType : String) : DBState × Nat :=
  ({ db with
      file_uploads := db.file_uploads ++
        [{ id := db.nextFileUploadId, session_id := sessionId,
           filename := filename, original_name := originalName,
           file_path := filePath, file_size := fileSize,
           mime_type := mimeType, upload_timestamp := now }],
      nextFileUploadId := db.nextFileUploadId + 1 },
   db.nextFileUploadId)

/-- Database.saveGeneratedImage: INSERT INTO generated_images (the stored
image path may be null). -/
def saveGeneratedImage (db : DBState) (now : Nat)
    (sessionId prompt : String) (imagePath : Option String) : DBState :=
  { db with
      generated_images := db.generated_images ++
        [{ id := db.nextGeneratedImageId, session_id := sessionId,
           prompt := prompt, image_path := imagePath,
           generation_timestamp := now }],
      nextGeneratedImageId := db.nextGeneratedImageId + 1 }

/-- Database.getSessionFiles: SELECT from file_uploads WHERE the session id
matches, ORDER BY upload_timestamp DESC. -/
def getSessionFiles (db : DBState) (sessionId : String) : List FileUploadRow :=
  (db.file_uploads.filter (fun f => f.session_id == sessionId)).insertionSort
    fileTsGe

/-! ## Environment: the external world seen by one request

Each record instance describes one request execution: the clock, the outcome of
every awaited external call (model API, vision call, image probes, filesystem),
and whether each awaited store write rejects (`none` = resolves, `some e` = the
promise rejects with message `e`). -/

/-- External-world oracle for a single request. -/
structure ServerEnv where
  now : Nat
  modelResponse : String → Except String String
  visionResponse : Except String String
  fileMime : String → Option String
  fileContent : String → Except String String
  saveUserMsgFail : Option String
  saveBotMsgFail : Option String
  saveConvFail : Option String
  imageSaveFail : Option String
  descriptionResponse : Except String String
  encodeComponent : String → String
  seed : Nat
  picsumSeed : Nat
  pollinationsHeadOk : Bool
  urlFetchOk : String → Bool
  fsWriteOk : Bool
  colorIdx : Fin 6
  dateStr : String

/-- JSON responses of the chat endpoint. -/
inductive ChatResponse where
  | ok (response : String) (sessionId : String)
  | okImage (response : String) (sessionId : String) (imageUrl : Option String)
  | okImageDescription (response : String) (sessionId : String)
  | badRequest (error : String)
  | serverError (error : String) (details : String)
deriving Repr, DecidableEq

/-- Error body used by the chat endpoint catch-all. -/
def genericChatError : String :=
  "Sorry, I encountered an error. Please try again."

/-! ## Image generation chain -/

/-- Fixed gradient palette of generateLocalPlaceholderImage. -/
def colors : List (String × String) :=
  [("#667eea", "#764ba2"), ("#f093fb", "#f5576c"), ("#4facfe", "#00f2fe"),
   ("#43e97b", "#38f9d7"), ("#fa709a", "#fee140"), ("#a8edea", "#fed6e3")]

/-- First eight words of the prompt: split on single spaces, keep eight,
rejoin. -/
def firstEightWords (prompt : String) : String :=
  String.intercalate " " ((prompt.splitOn " ").take 8)

/-- Opening of the SVG template, fixing the 512x512 size. -/
def svgOpenTag : String :=
  "\n<svg width=\"512\" height=\"512\""

/-- Leading chunk of the SVG template (layout whitespace abbreviated). -/
def svgPart1 : String :=
  svgOpenTag ++
    " xmlns=\"http://www.w3.org/2000/svg\">\n<defs>\n<linearGradient id=\"grad1\" x1=\"0%\" y1=\"0%\" x2=\"100%\" y2=\"100%\">\n<stop offset=\"0%\" style=\"stop-color:"

/-- Chunk of the SVG template between the two gradient stops. -/
def svgPart2 : String :=
  ";stop-opacity:1\" />\n<stop offset=\"100%\" style=\"stop-color:"

/-- Chunk of the SVG template between the gradient and the prompt text. -/
def svgPart3 : String :=
  ";stop-opacity:1\" />\n</linearGradient>\n<filter id=\"shadow\" x=\"-20%\" y=\"-20%\" width=\"140%\" height=\"140%\">\n<feDropShadow dx=\"2\" dy=\"2\" stdDeviation=\"3\" flood-color=\"rgba(0,0,0,0.3)\"/>\n</filter>\n</defs>\n<rect width=\"512\" height=\"512\" fill=\"url(#grad1)\" />\n<!-- Decorative elements -->\n<circle cx=\"100\" cy=\"100\" r=\"30\" fill=\"rgba(255,255,255,0.1)\" />\n<circle cx=\"400\" cy=\"400\" r=\"40\" fill=\"rgba(255,255,255,0.1)\" />\n<circle cx=\"450\" cy=\"80\" r=\"20\" fill=\"rgba(255,255,255,0.1)\" />\n<!-- Main content -->\n<text x=\"256\" y=\"180\" font-family=\"Arial, sans-serif\" font-size=\"28\" font-weight=\"bold\" text-anchor=\"middle\" fill=\"white\" filter=\"url(#shadow)\">\n🎨 AI Generated\n</text>\n<foreignObject x=\"50\" y=\"220\" width=\"412\" height=\"120\">\n<div xmlns=\"http://www.w3.org/1999/xhtml\" style=\"color: white; font-family: Arial, sans-serif; font-size: 18px; text-align: center; line-height: 1.4; text-shadow: 2px 2px 4px rgba(0,0,0,0.3); padding: 10px;\">\n\""

/-- Chunk of the SVG template between the prompt text and the date. -/
def svgPart4 : String :=
  "\"\n</div>\n</foreignObject>\n<text x=\"256\" y=\"380\" font-family=\"Arial, sans-serif\" font-size=\"14\" text-anchor=\"middle\" fill=\"rgba(255,255,255,0.9)\">\nGenerated with AI ✨\n</text>\n<text x=\"256\" y=\"400\" font-family=\"Arial, sans-serif\" font-size=\"12\" text-anchor=\"middle\" fill=\"rgba(255,255,255,0.7)\">\n"

/-- Closing chunk of the SVG template. -/
def svgPart5 : String :=
  "\n</text>\n</svg>\n"

/-- Body of the SVG placeholder: the template with the chosen gradient pair,
the first eight words of the prompt (with an ellipsis when truncated) and the
locale date string interpolated. -/
def svgContent (colorIdx : Fin 6) (dateStr : String) (prompt : String) :
    String :=
  let randomColor := colors.get ⟨colorIdx.val, colorIdx.isLt⟩
  let promptWords := firstEightWords prompt
  svgPart1 ++ randomColor.1 ++ svgPart2 ++ randomColor.2 ++ svgPart3 ++
    promptWords ++
    (if promptWords.length < prompt.length then "..." else "") ++
    svgPart4 ++ dateStr ++ svgPart5

/-- Alphabet of standard base64. -/
def base64Table : List Char :=
  "ABCDEFGHIJKLMNOPQRSTUVWXYZabcdefghijklmnopqrstuvwxyz0123456789+/".data

/-- Digit of standard base64. -/
def b64Char (n : Nat) : Char :=
  base64Table.getD n 'A'

/-- Encode a byte list (values < 256) in base64, three bytes at a time. -/
def base64Chunks : List Nat → List Char
  | [] => []
  | [b0] => [b64Char (b0 / 4), b64Char (b0 % 4 * 16), '=', '=']
  | [b0, b1] =>
      [b64Char (b0 / 4), b64Char (b0 % 4 * 16 + b1 / 16),
       b64Char (b1 % 16 * 4), '=']
  | b0 :: b1 :: b2 :: rest =>
      b64Char (b0 / 4) :: b64Char (b0 % 4 * 16 + b1 / 16) ::
        b64Char (b1 % 16 * 4 + b2 / 64) :: b64Char (b2 % 64) ::
        base64Chunks rest

/-- Node Buffer.from(s).toString with base64 encoding: base64 of the UTF-8
bytes of the string. -/
def base64Encode (s : String) : String :=
  String.mk (base64Chunks (s.toUTF8.toList.map UInt8.toNat))

/-- generateLocalPlaceholderImage: render the SVG and wrap it in a base64 data
URL. The function body is pure string construction, so the catch that would
return null is unreachable and the result is always `some`. -/
def generateLocalPlaceholderImage (env : ServerEnv) (prompt : String) :
    Option String :=
  some ("data:image/svg+xml;base64," ++
        base64Encode (svgContent env.colorIdx env.dateStr prompt))

/-- Pollinations probe URL built from the prompt and a random seed. -/
def pollinationsUrl (env : ServerEnv) (prompt : String) : String :=
  "https://image.pollinations.ai/prompt/" ++ env.encodeComponent prompt ++
    "?width=512&height=512&seed=" ++ toString env.seed

/-- Picsum fallback URL with a random query parameter. -/
def picsumUrl (env : ServerEnv) : String :=
  "https://picsum.photos/512/512?random=" ++ toString env.picsumSeed

/-- Method 1 of generateImageWithHuggingFace: axios.head on the Pollinations
URL with a 10s timeout; the URL is returned only when the probe resolves with
status 200, and any failure falls through to the next method. -/
def tryPollinations (env : ServerEnv) (prompt : String) : Option String :=
  if env.pollinationsHeadOk then some (pollinationsUrl env prompt) else none

/-- Method 2 of generateImageWithHuggingFace: the try block only constructs
the Picsum URL string and performs no network call, so it cannot throw and the
catch that would fall through to local generation is unreachable. -/
def tryPicsum (env : ServerEnv) : Option String :=
  some (picsumUrl env)

/-- generateImageWithHuggingFace: the ordered three-method fallback. -/
def generateImageWithHuggingFace (env : ServerEnv) (prompt : String) :
    Option String :=
  match tryPollinations env prompt with
  | some url => some url
  | none =>
      match tryPicsum env with
      | some url => some url
      | none => generateLocalPlaceholderImage env prompt

/-- downloadAndSaveImage: materialize the chosen source to
generated-images/generated-(first 8 chars of session)-(timestamp).png, by
base64 decode-and-write for data URLs and by HTTP download for remote URLs;
every error is caught internally and surfaced as null (`none`). -/
def downloadAndSaveImage (env : ServerEnv) (imageUrl sessionId : String) :
    Option String :=
  let filename :=
    "generated-" ++ takeStr sessionId 8 ++ "-" ++ toString env.now ++ ".png"
  if startsWithStr imageUrl "data:" then
    if env.fsWriteOk then some ("/generated-images/" ++ filename) else none
  else
    if env.urlFetchOk imageUrl then some ("/generated-images/" ++ filename)
    else none

/-- JavaScript template interpolation of a nullable value: null prints as the
four characters null. -/
def showNullable : Option String → String
  | some s => s
  | none => "null"

/-- Success message of the image-generation handler. -/
def imageSuccessMessage (prompt : String) (imagePath : Option String) :
    String :=
  "🎨 **Image Generated Successfully!**\n\n**Your Prompt:** \"" ++ prompt ++
    "\"\n\nI\x27ve generated an image based on your description. You can view it below:\n\n![Generated Image](" ++
    showNullable imagePath ++
    ")\n\nThe image has been created and saved. You can download it or ask me to generate variations!"

/-- Message of the description-mode fallback. -/
def descriptionMessage (prompt imageDescription : String) : String :=
  "🎨 **Image Generation (Description Mode)**\n\n**Your Prompt:** \"" ++
    prompt ++ "\"\n\n**Detailed Visual Description:**\n" ++ imageDescription ++
    "\n\n---\n**Note:** I created a detailed description since image generation services are currently unavailable. The description above gives you a vivid picture of what your requested image would look like!"

/-- handleImageDescriptionFallback: ask the model for a prose description,
persist the message pair and the turn, and answer; the catch maps any
rejection (model call or store write) to a 500. -/
def handleImageDescriptionFallback (env : ServerEnv) (db : DBState)
    (sessionId prompt : String) : ChatResponse × DBState :=
  match env.descriptionResponse with
  | .error e =>
      (.serverError "Image generation failed. Please try again." e, db)
  | .ok imageDescription =>
      let fullResponse := descriptionMessage prompt imageDescription
      match env.saveUserMsgFail with
      | some e =>
          (.serverError "Image generation failed. Please try again." e, db)
      | none =>
          let db1 := saveChatMessage db env.now sessionId "user"
            ("[Image Generation] " ++ prompt)
          match env.saveBotMsgFail with
          | some e =>
              (.serverError "Image generation failed. Please try again." e,
               db1)
          | none =>
              let db2 := saveChatMessage db1 env.now sessionId "assistant"
                fullResponse
              match env.saveConvFail with
              | some e =>
                  (.serverError "Image generation failed. Please try again." e,
                   db2)
              | none =>
                  let db3 := saveConversation db2 env.now sessionId prompt
                    fullResponse
                  (.okImageDescription fullResponse sessionId, db3)

/-- handleImageGeneration: obtain a source from the fallback chain, materialize
it (a null path is interpolated as-is), persist the generated-image record,
the message pair and the turn, and answer; a store rejection is caught and
routed to the description fallback. -/
def handleImageGeneration (env : ServerEnv) (db : DBState)
    (sessionId prompt : String) : ChatResponse × DBState :=
  match generateImageWithHuggingFace env prompt with
  | some imageUrl =>
      let imagePath := downloadAndSaveImage env imageUrl sessionId
      match env.imageSaveFail with
      | some _ => handleImageDescriptionFallback env db sessionId prompt
      | none =>
          let db1 := saveGeneratedImage db env.now sessionId prompt imagePath
          match env.saveUserMsgFail with
          | some _ => handleImageDescriptionFallback env db1 sessionId prompt
          | none =>
              let db2 := saveChatMessage db1 env.now sessionId "user"
                ("[Image Generation] " ++ prompt)
              match env.saveBotMsgFail with
              | some _ =>
                  handleImageDescriptionFallback env db2 sessionId prompt
              | none =>
                  let db3 := saveChatMessage db2 env.now sessionId "assistant"
                    ("Generated image: " ++ prompt)
                  match env.saveConvFail with
                  | some _ =>
                      handleImageDescriptionFallback env db3 sessionId prompt
                  | none =>
                      let db4 := saveConversation db3 env.now sessionId prompt
                        ("Generated image: " ++ prompt)
                      (.okImage (imageSuccessMessage prompt imagePath)
                         sessionId imagePath, db4)
  | none => handleImageDescriptionFallback env db sessionId prompt

/-! ## File upload (multer configuration and the upload endpoint) -/

/-- Alternation tokens of the multer fileFilter regex. -/
def allowedTypesTokens : List String :=
  ["jpeg", "jpg", "png", "gif", "webp", "txt", "pdf", "doc", "docx", "json",
   "csv"]

/-- JavaScript allowedTypes.test: the regex has no anchors, so it matches when
any token occurs as a substring. -/
def regexTestAllowed (s : String) : Bool :=
  allowedTypesTokens.any (fun t => strContainsB s t)

/-- multer fileFilter: both the lowercased extension and the mime type must
match the token regex. -/
def fileFilterAccepts (originalname mimetype : String) : Bool :=
  regexTestAllowed (toLowerStr (extname originalname)) &&
    regexTestAllowed mimetype

/-- Incoming multipart file as multer sees it. -/
structure UploadedFile where
  originalname : String
  mimetype : String
  size : Nat
deriving Repr, DecidableEq

/-- multer fileSize limit: 10 MB. -/
def fileSizeLimit : Nat := 10 * 1024 * 1024

/-- JSON responses of the upload endpoint. -/
inductive UploadResponse where
  | ok (fileId : Nat) (filename : String) (originalName : String) (size : Nat)
      (mimeType : String) (sessionId : String)
  | rejected (error : String)
deriving Repr, DecidableEq

/-- Upload endpoint: multer applies the fileFilter and then the size cap while
the part streams in, both before the route handler runs; only an accepted file
reaches createOrGetUser and saveFileUpload. `storedName` is the unique disk
name multer generates. -/
def uploadEndpoint (db : DBState) (now : Nat) (sessionId storedName : String)
    (file : UploadedFile) : UploadResponse × DBState :=
  if fileFilterAccepts file.originalname file.mimetype = false then
    (.rejected "Only images, text files, and documents are allowed!", db)
  else if fileSizeLimit < file.size then
    (.rejected "File too large", db)
  else
    let db1 := (createOrGetUser db now sessionId).1
    let saved := saveFileUpload db1 now sessionId storedName
      file.originalname ("uploads/" ++ storedName) file.size file.mimetype
    (.ok saved.2 storedName file.originalname file.size file.mimetype
       sessionId,
     saved.1)

/-! ## Chat endpoint -/

/-- Fixed system preamble of the prompt. -/
def systemPreamble : String :=
  "You are a helpful AI assistant. Be friendly and concise in your responses.\n\n"

/-- Rendering of one stored message inside the prompt. -/
def renderMessage (m : ChatMessage) : String :=
  if m.role == "user" then "User: " ++ m.content ++ "\n"
  else "Assistant: " ++ m.content ++ "\n"

/-- Preamble plus the rendered history, before the new turn is appended. -/
def historyPrompt (history : List ChatMessage) : String :=
  systemPreamble ++ String.join (history.map renderMessage)

/-- Prompt completed with the new user turn. -/
def promptWithNewTurn (base message : String) : String :=
  base ++ "User: " ++ message ++ "\nAssistant:"

/-- Prompt produced when the file-analysis try block throws. -/
def analysisNote (base message : String) : String :=
  base ++ "User: " ++ message ++
    " (Note: Could not analyze uploaded file - file may not exist or be corrupted)\nAssistant:"

/-- File-analysis block of the chat endpoint. For an image mime type it runs
the vision call and persists and answers directly (`inl`); any throw inside
the block (read, vision call, store write) is caught and the handler continues
with the could-not-analyze prompt; for text/plain or application/json the file
content is injected into the prompt; any other mime type falls through without
appending a new turn. The second component carries the store state, since
writes that preceded a caught rejection persist. -/
def handleFileAnalysis (env : ServerEnv) (db : DBState)
    (basePrompt message sessionId url : String) :
    (ChatResponse × DBState) ⊕ (String × DBState) :=
  match env.fileMime url with
  | none => .inr (basePrompt, db)
  | some mimeType =>
      if startsWithStr mimeType "image/" then
        match env.fileContent url with
        | .error _ => .inr (analysisNote basePrompt message, db)
        | .ok _bytes =>
            match env.visionResponse with
            | .error _ => .inr (analysisNote basePrompt message, db)
            | .ok botResponse =>
                match env.saveUserMsgFail with
                | some _ => .inr (analysisNote basePrompt message, db)
                | none =>
                    let db1 := saveChatMessage db env.now sessionId "user"
                      (message ++ " [Image: " ++ url ++ "]")
                    match env.saveBotMsgFail with
                    | some _ => .inr (analysisNote basePrompt message, db1)
                    | none =>
                        let db2 := saveChatMessage db1 env.now sessionId
                          "assistant" botResponse
                        match env.saveConvFail with
                        | some _ =>
                            .inr (analysisNote basePrompt message, db2)
                        | none =>
                            let db3 := saveConversation db2 env.now sessionId
                              message botResponse
                            .inl (.ok botResponse sessionId, db3)
      else if mimeType == "text/plain" || mimeType == "application/json" then
        match env.fileContent url with
        | .error _ => .inr (analysisNote basePrompt message, db)
        | .ok fileContent =>
            .inr (basePrompt ++ "User uploaded a file with content:\n" ++
                    fileContent ++ "\n\nUser: " ++ message ++ "\nAssistant:",
                  db)
      else .inr (basePrompt, db)

/-- Chat endpoint: validate the message, create or refresh the session row,
dispatch image-generation requests, otherwise build the prompt from the last
fetch of history plus the optional file analysis, call the model, persist the
message pair and the turn, and answer; the catch maps any rejection to a 500
with the generic error text. -/
def chatHandler (env : ServerEnv) (db : DBState) (message sessionId : String)
    (fileUrl : Option String) (generateImage : Bool) :
    ChatResponse × DBState :=
  if message = "" then (.badRequest "Message is required", db)
  else
    let db1 := (createOrGetUser db env.now sessionId).1
    if generateImage then handleImageGeneration env db1 sessionId message
    else
      let conversationHistory := getConversationHistory db1 sessionId 10
      let basePrompt := historyPrompt conversationHistory
      let step :=
        match fileUrl with
        | some url => handleFileAnalysis env db1 basePrompt message sessionId
            url
        | none => .inr (promptWithNewTurn basePrompt message, db1)
      match step with
      | .inl result => result
      | .inr (prompt, db2) =>
          match env.modelResponse prompt with
          | .error e => (.serverError genericChatError e, db2)
          | .ok botResponse =>
              match env.saveUserMsgFail with
              | some e => (.serverError genericChatError e, db2)
              | none =>
                  let db3 := saveChatMessage db2 env.now sessionId "user"
                    message
                  match env.saveBotMsgFail with
                  | some e => (.serverError genericChatError e, db3)
                  | none =>
                      let db4 := saveChatMessage db3 env.now sessionId
                        "assistant" botResponse
                      match env.saveConvFail with
                      | some e => (.serverError genericChatError e, db4)
                      | none =>
                          let db5 := saveConversation db4 env.now sessionId
                            message botResponse
                          (.ok botResponse sessionId, db5)

/-! ## Clear and export endpoints -/

/-- JSON responses of the clear endpoint. -/
inductive ClearResponse where
  | ok (message : String) (deletedRows : Nat)
  | badRequest (error : String)
deriving Repr, DecidableEq

/-- Clear endpoint: a missing session id is a 400; otherwise the grouped
delete runs and its deletedRows value is surfaced. -/
def clearEndpoint (db : DBState) (sessionId : String) :
    ClearResponse × DBState :=
  if sessionId = "" then (.badRequest "Session ID is required", db)
  else
    ((.ok "Conversation cleared" (clearSessionHistory db sessionId).2),
     (clearSessionHistory db sessionId).1)

/-- Export document assembled by the export endpoint. -/
structure ExportData where
  sessionId : String
  exportDate : String
  messageCount : Nat
  fileCount : Nat
  conversations : List ChatMessage
  uploadedFiles : List FileUploadRow
deriving Repr, DecidableEq

/-- JSON responses of the export endpoint; the store reads resolve with a
list (rows or the empty default) and never reject in this pure model, so the
catch producing a 500 has no reachable trigger. -/
inductive ExportResponse where
  | ok (data : ExportData)
  | serverError (error : String)
deriving Repr, DecidableEq

/-- Export endpoint: history capped at 1000 plus the file list, wrapped with
counts and the export date. -/
def exportEndpoint (db : DBState) (sessionId exportDate : String) :
    ExportResponse :=
  let history := getConversationHistory db sessionId 1000
  let files := getSessionFiles db sessionId
  .ok { sessionId := sessionId, exportDate := exportDate,
        messageCount := history.length, fileCount := files.length,
        conversations := history, uploadedFiles := files }

/-! ## Definitions modelled from the wording of the spec (for refinement
comparisons only; every definition above this section is translated from the
source) -/

/-- Modelled from the spec: the last K stored messages of the session (the K
most recent by timestamp), in chronological order — what the spec says the
prompt builder includes. -/
def lastKMessages (db : DBState) (sessionId : String) (k : Nat) :
    List ChatMessage :=
  let sorted := (db.chat_messages.filter
    (fun m => m.session_id == sessionId)).insertionSort tsLe
  sorted.drop (sorted.length - k)

/-- Modelled from the spec: the allow-list reading of the extension check —
the lowercased extension, without its dot, must itself be one of the allowed
types. -/
def specExtAllowed (originalname : String) : Bool :=
  match (toLowerStr (extname originalname)).data with
  | '.' :: rest => allowedTypesTokens.contains (String.mk rest)
  | _ => false

/-! ## Concrete stores and environments used by closed theorems -/

/-- Store with all five tables empty. -/
def emptyDB : DBState := ⟨[], [], [], [], [], 0, 0, 0, 0, 0⟩

/-- Chat message number i of the eleven-message session used for C1. -/
def c1Msg (i : Nat) : ChatMessage :=
  ⟨i, "s", if i % 2 = 0 then "user" else "assistant", toString i, i⟩

/-- Store holding one session with eleven stored messages, timestamps 0..10. -/
def dbC1 : DBState :=
  ⟨[⟨0, "s", 0, 0⟩], [], (List.range 11).map c1Msg, [], [], 1, 0, 11, 0, 0⟩

/-! ## C2: getConversationHistory scoping and ordering -/

/-- C2: for every session id and every limit, getConversationHistory returns
only rows of that session, and the returned rows are in non-decreasing
timestamp order. -/
theorem getConversationHistory_scope_sorted (db : DBState) (sid : String)
    (limit : Nat) :
    (∀ m ∈ getConversationHistory db sid limit, m.session_id = sid) ∧
    (getConversationHistory db sid limit).Pairwise tsLe := by
  constructor
  · intro m hm
    have h1 : m ∈ (db.chat_messages.filter
        (fun x => x.session_id == sid)).insertionSort tsLe :=
      List.mem_of_mem_take hm
    have h2 : m ∈ db.chat_messages.filter (fun x => x.session_id == sid) :=
      (List.mem_insertionSort tsLe).mp h1
    exact eq_of_beq (List.mem_filter.mp h2).2
  · exact List.Pairwise.sublist (List.take_sublist _ _)
      (List.sorted_insertionSort tsLe _)

/-- Messages of the store used to witness C2. -/
def msgW1 : ChatMessage := ⟨1, "s", "user", "hi", 5⟩

/-- Store used to witness C2, holding two sessions. -/
def dbW : DBState :=
  ⟨[], [], [⟨2, "s", "assistant", "yo", 7⟩, msgW1, ⟨3, "t", "user", "x", 1⟩],
   [], [], 0, 0, 4, 0, 0⟩

/-- Witness for C2 at a concrete store, session and limit. -/
theorem getConversationHistory_scope_sorted_witness :
    msgW1.session_id = "s" ∧ (getConversationHistory dbW "s" 10).Pairwise tsLe :=
  ⟨(getConversationHistory_scope_sorted dbW "s" 10).1 msgW1 (by decide),
   (getConversationHistory_scope_sorted dbW "s" 10).2⟩

/-! ## C1: which ten messages reach the prompt -/

set_option maxRecDepth 10000 in
/-- C1 (failing on the code): with eleven stored messages the handler fetch
`getConversationHistory sessionId 10` returns the ten OLDEST messages
(ORDER BY timestamp ASC LIMIT 10 takes the front of the ascending order), the
most recent message is absent from the fetched history and from the built
prompt, and the result differs from the spec-side last-ten reading. -/
theorem chatPrompt_uses_oldest_ten_not_most_recent :
    getConversationHistory dbC1 "s" 10 = (List.range 10).map c1Msg ∧
    c1Msg 10 ∉ getConversationHistory dbC1 "s" 10 ∧
    (∀ m ∈ getConversationHistory dbC1 "s" 10,
      m.timestamp < (c1Msg 10).timestamp) ∧
    strContainsB
      (promptWithNewTurn (historyPrompt (getConversationHistory dbC1 "s" 10))
        "hello")
      (renderMessage (c1Msg 10)) = false ∧
    lastKMessages dbC1 "s" 10 = (List.range' 1 10).map c1Msg ∧
    getConversationHistory dbC1 "s" 10 ≠ lastKMessages dbC1 "s" 10 := by
  decide

/-! ## C3: clearing a session is total for that session and frames others -/

/-- C3: clearSessionHistory removes every chat message and every conversation
row of the given session, keeps every row of other sessions in those two
tables, and leaves the other three tables unchanged. -/
theorem clearSessionHistory_scope_frame (db : DBState) (sid : String) :
    (∀ m ∈ (clearSessionHistory db sid).1.chat_messages, m.session_id ≠ sid) ∧
    (∀ c ∈ (clearSessionHistory db sid).1.conversations, c.session_id ≠ sid) ∧
    (∀ m ∈ db.chat_messages, m.session_id ≠ sid →
      m ∈ (clearSessionHistory db sid).1.chat_messages) ∧
    (∀ c ∈ db.conversations, c.session_id ≠ sid →
      c ∈ (clearSessionHistory db sid).1.conversations) ∧
    (clearSessionHistory db sid).1.users = db.users ∧
    (clearSessionHistory db sid).1.file_uploads = db.file_uploads ∧
    (clearSessionHistory db sid).1.generated_images = db.generated_images := by
  refine ⟨?_, ?_, ?_, ?_, rfl, rfl, rfl⟩
  · intro m hm
    have h := (List.mem_filter.mp hm).2
    simp only [Bool.not_eq_true', beq_eq_false_iff_ne] at h
    exact h
  · intro c hc
    have h := (List.mem_filter.mp hc).2
    simp only [Bool.not_eq_true', beq_eq_false_iff_ne] at h
    exact h
  · intro m hm hne
    refine List.mem_filter.mpr ⟨hm, ?_⟩
    simp only [Bool.not_eq_true', beq_eq_false_iff_ne]
    exact hne
  · intro c hc hne
    refine List.mem_filter.mpr ⟨hc, ?_⟩
    simp only [Bool.not_eq_true', beq_eq_false_iff_ne]
    exact hne

/-- Chat message of another session, kept by the C3 witness clear. -/
def c3MsgOther : ChatMessage := ⟨5, "t", "user", "keep", 3⟩

/-- Conversation row of another session, kept by the C3 witness clear. -/
def c3ConvOther : ConversationRow := ⟨6, "t", "q", "a", 4⟩

/-- Store used to witness C3, holding rows of two sessions. -/
def dbC3 : DBState :=
  ⟨[⟨0, "s", 0, 0⟩, ⟨1, "t", 0, 0⟩],
   [⟨2, "s", "m", "r", 1⟩, c3ConvOther],
   [⟨3, "s", "user", "x", 1⟩, c3MsgOther],
   [], [], 2, 7, 6, 0, 0⟩

/-- Witness for C3 at a concrete store: rows of the other session survive and
the users table is untouched. -/
theorem clearSessionHistory_scope_frame_witness :
    c3MsgOther ∈ (clearSessionHistory dbC3 "s").1.chat_messages ∧
    c3ConvOther ∈ (clearSessionHistory dbC3 "s").1.conversations ∧
    (clearSessionHistory dbC3 "s").1.users = dbC3.users :=
  ⟨(clearSessionHistory_scope_frame dbC3 "s").2.2.1 c3MsgOther (by decide)
     (by decide),
   (clearSessionHistory_scope_frame dbC3 "s").2.2.2.1 c3ConvOther (by decide)
     (by decide),
   (clearSessionHistory_scope_frame dbC3 "s").2.2.2.2.1⟩

/-! ## C10: what deletedRows counts -/

/-- C10: the deletedRows surfaced by the clear endpoint is the number of
conversations rows of the session alone; with at least one chat message it
differs from the total number of rows the call deletes. -/
theorem clearEndpoint_deletedRows_counts_conversations_only (db : DBState)
    (sid : String) (h : ¬ sid = "") :
    (clearEndpoint db sid).1 = ClearResponse.ok "Conversation cleared"
      (db.conversations.countP (fun c => c.session_id == sid)) ∧
    (0 < db.chat_messages.countP (fun m => m.session_id == sid) →
      (clearSessionHistory db sid).2 ≠
        db.chat_messages.countP (fun m => m.session_id == sid) +
          db.conversations.countP (fun c => c.session_id == sid)) := by
  have hdel : (clearSessionHistory db sid).2 =
      db.conversations.countP (fun c => c.session_id == sid) := by
    simp [clearSessionHistory, List.countP_eq_length_filter]
  constructor
  · simp [clearEndpoint, h, hdel]
  · intro hm
    rw [hdel]
    omega

/-- Store used to witness C10: two chat messages and one conversation row of
the session. -/
def dbC10 : DBState :=
  ⟨[⟨0, "s", 0, 0⟩],
   [⟨1, "s", "q", "a", 2⟩],
   [⟨2, "s", "user", "q", 1⟩, ⟨3, "s", "assistant", "a", 2⟩],
   [], [], 1, 2, 4, 0, 0⟩

/-- Witness for C10 at a concrete store: deletedRows is 1, not 3. -/
theorem clearEndpoint_deletedRows_witness :
    (clearEndpoint dbC10 "s").1 = ClearResponse.ok "Conversation cleared" 1 ∧
    (clearSessionHistory dbC10 "s").2 ≠ 3 := by
  have h := clearEndpoint_deletedRows_counts_conversations_only dbC10 "s"
    (by decide)
  exact ⟨by rw [h.1]; rfl, h.2 (by decide)⟩

/-! ## C9: createOrGetUser is idempotent -/

/-- Helper: the last-active refresh map keeps the per-session row count. -/
theorem countP_updateActive (sid : String) (t : Nat) (l : List UserRow) :
    (l.map (fun u => if u.session_id == sid then { u with last_active := t }
      else u)).countP (fun u => u.session_id == sid) =
    l.countP (fun u => u.session_id == sid) := by
  induction l with
  | nil => rfl
  | cons x xs ih =>
      simp only [List.map_cons, List.countP_cons, ih]
      by_cases hx : (x.session_id == sid) = true
      · simp [hx]
      · simp [hx]

/-- C9: given the UNIQUE invariant (at most one users row per session id), a
second createOrGetUser call after a first one leaves exactly one row for the
session, adds no row, resolves with a row already present for that session,
and only refreshes last_active on the matching row. -/
theorem createOrGetUser_idempotent (db : DBState) (t1 t2 : Nat) (sid : String)
    (h : db.users.countP (fun u => u.session_id == sid) ≤ 1) :
    ((createOrGetUser (createOrGetUser db t1 sid).1 t2 sid).1.users.countP
        (fun u => u.session_id == sid) = 1) ∧
    ((createOrGetUser (createOrGetUser db t1 sid).1 t2 sid).1.users.length =
      (createOrGetUser db t1 sid).1.users.length) ∧
    ((createOrGetUser (createOrGetUser db t1 sid).1 t2 sid).2 ∈
        (createOrGetUser db t1 sid).1.users ∧
      (createOrGetUser (createOrGetUser db t1 sid).1 t2 sid).2.session_id =
        sid) ∧
    ((createOrGetUser (createOrGetUser db t1 sid).1 t2 sid).1.users =
      (createOrGetUser db t1 sid).1.users.map
        (fun u => if u.session_id == sid then { u with last_active := t2 }
          else u)) := by
  have hc1 : (createOrGetUser db t1 sid).1.users.countP
      (fun u => u.session_id == sid) = 1 := by
    unfold createOrGetUser
    cases hf : db.users.find? (fun u => u.session_id == sid) with
    | some row =>
        dsimp only
        rw [countP_updateActive]
        have hpr := List.find?_some hf
        have hpos : 0 < db.users.countP (fun u => u.session_id == sid) :=
          List.countP_pos_iff.mpr ⟨row, List.mem_of_find?_eq_some hf, hpr⟩
        omega
    | none =>
        dsimp only
        rw [List.countP_append]
        have h0 : db.users.countP (fun u => u.session_id == sid) = 0 :=
          List.countP_eq_zero.mpr (List.find?_eq_none.mp hf)
        rw [h0]
        simp [List.countP_cons]
  obtain ⟨row2, hf2⟩ : ∃ r, (createOrGetUser db t1 sid).1.users.find?
      (fun u => u.session_id == sid) = some r := by
    cases hf2 : (createOrGetUser db t1 sid).1.users.find?
        (fun u => u.session_id == sid) with
    | some r => exact ⟨r, rfl⟩
    | none =>
        have h0 : (createOrGetUser db t1 sid).1.users.countP
            (fun u => u.session_id == sid) = 0 :=
          List.countP_eq_zero.mpr (List.find?_eq_none.mp hf2)
        omega
  set db1 := (createOrGetUser db t1 sid).1 with hdb1
  unfold createOrGetUser
  rw [hf2]
  dsimp only
  refine ⟨?_, ?_, ⟨?_, ?_⟩, rfl⟩
  · rw [countP_updateActive]
    exact hc1
  · simp
  · exact List.mem_of_find?_eq_some hf2
  · have hpr2 := List.find?_some hf2
    exact eq_of_beq hpr2

/-- Witness for C9 at a concrete store: two calls leave one users row. -/
theorem createOrGetUser_idempotent_witness :
    (createOrGetUser (createOrGetUser emptyDB 5 "s").1 9 "s").1.users.countP
      (fun u => u.session_id == "s") = 1 ∧
    (createOrGetUser (createOrGetUser emptyDB 5 "s").1 9 "s").1.users.length =
      (createOrGetUser emptyDB 5 "s").1.users.length := by
  have h := createOrGetUser_idempotent emptyDB 5 9 "s" (by decide)
  exact ⟨h.1, h.2.1⟩

/-! ## C5: the local placeholder always succeeds and embeds its parts -/

/-- Helper: a string contains itself. -/
theorem containsStr_refl (t : String) : containsStr t t :=
  ⟨[], [], by simp⟩

/-- Helper: containment survives appending on the right. -/
theorem containsStr_append_left {s t : String} (u : String)
    (h : containsStr s t) : containsStr (s ++ u) t := by
  obtain ⟨pre, post, hp⟩ := h
  exact ⟨pre, post ++ u.data, by simp [hp]⟩

/-- Helper: containment survives appending on the left. -/
theorem containsStr_append_right {s t : String} (u : String)
    (h : containsStr s t) : containsStr (u ++ s) t := by
  obtain ⟨pre, post, hp⟩ := h
  exact ⟨u.data ++ pre, post, by simp [hp]⟩

/-- C5: for every environment and prompt, the local placeholder synthesis
returns `some` data URL of the rendered SVG (never a failure), and the SVG
embeds the fixed 512x512 opening tag, the chosen palette gradient pair (an
element of the fixed palette), the first eight words of the prompt, and the
date string. -/
theorem generateLocalPlaceholderImage_total_content (env : ServerEnv)
    (p : String) :
    generateLocalPlaceholderImage env p =
      some ("data:image/svg+xml;base64," ++
        base64Encode (svgContent env.colorIdx env.dateStr p)) ∧
    containsStr (svgContent env.colorIdx env.dateStr p) (firstEightWords p) ∧
    containsStr (svgContent env.colorIdx env.dateStr p) env.dateStr ∧
    containsStr (svgContent env.colorIdx env.dateStr p)
      (colors.get ⟨env.colorIdx.val, env.colorIdx.isLt⟩).1 ∧
    containsStr (svgContent env.colorIdx env.dateStr p)
      (colors.get ⟨env.colorIdx.val, env.colorIdx.isLt⟩).2 ∧
    colors.get ⟨env.colorIdx.val, env.colorIdx.isLt⟩ ∈ colors ∧
    containsStr (svgContent env.colorIdx env.dateStr p) svgOpenTag := by
  refine ⟨rfl, ?_, ?_, ?_, ?_, ?_, ?_⟩
  · dsimp only [svgContent]
    exact containsStr_append_left _ (containsStr_append_left _
      (containsStr_append_left _ (containsStr_append_left _
        (containsStr_append_right _ (containsStr_refl _)))))
  · dsimp only [svgContent]
    exact containsStr_append_left _
      (containsStr_append_right _ (containsStr_refl _))
  · dsimp only [svgContent]
    exact containsStr_append_left _ (containsStr_append_left _
      (containsStr_append_left _ (containsStr_append_left _
        (containsStr_append_left _ (containsStr_append_left _
          (containsStr_append_left _ (containsStr_append_left _
            (containsStr_append_right _ (containsStr_refl _)))))))))
  · dsimp only [svgContent]
    exact containsStr_append_left _ (containsStr_append_left _
      (containsStr_append_left _ (containsStr_append_left _
        (containsStr_append_left _ (containsStr_append_left _
          (containsStr_append_right _ (containsStr_refl _)))))))
  · exact List.get_mem colors _ _
  · dsimp only [svgContent, svgPart1]
    exact containsStr_append_left _ (containsStr_append_left _
      (containsStr_append_left _ (containsStr_append_left _
        (containsStr_append_left _ (containsStr_append_left _
          (containsStr_append_left _ (containsStr_append_left _
            (containsStr_append_left _
              (containsStr_append_left _ (containsStr_refl _))))))))))

/-! ## C4: both remote image sources unreachable -/

/-- Environment of a request during which the Pollinations probe fails and
every remote fetch is unreachable, while the local filesystem and store
work. -/
def envC4 : ServerEnv :=
  { now := 42, modelResponse := fun _ => .error "",
    visionResponse := .error "",
    fileMime := fun _ => none, fileContent := fun _ => .error "",
    saveUserMsgFail := none, saveBotMsgFail := none,
    saveConvFail := none, imageSaveFail := none,
    descriptionResponse := .error "", encodeComponent := fun s => s,
    seed := 3, picsumSeed := 7, pollinationsHeadOk := false,
    urlFetchOk := fun _ => false, fsWriteOk := true,
    colorIdx := ⟨2, by decide⟩, dateStr := "1/1/2025" }

set_option maxRecDepth 10000 in
/-- C4 (failing on the code): with both remote image sources unreachable the
fallback chain still hands back the Picsum URL (its try block cannot throw,
so the local SVG branch is unreachable), the download of that URL fails and
yields a null path, and the handler responds 200 and persists a
generated_images record whose image path is null — not a rendered local
placeholder path. -/
theorem image_remotes_down_null_path_not_placeholder :
    generateImageWithHuggingFace envC4 "a cat" = some (picsumUrl envC4) ∧
    startsWithStr (picsumUrl envC4) "data:" = false ∧
    (handleImageGeneration envC4 emptyDB "sessionid" "a cat").1 =
      ChatResponse.okImage (imageSuccessMessage "a cat" none) "sessionid"
        none ∧
    (handleImageGeneration envC4 emptyDB "sessionid" "a cat").2.generated_images
      = [{ id := 0, session_id := "sessionid", prompt := "a cat",
           image_path := none, generation_timestamp := 42 }] := by
  refine ⟨by decide, by decide, by decide, by decide⟩

/-! ## C6: a store write failing after a successful model call -/

/-- Environment of a request during which the model call succeeds but the
first store write rejects. -/
def envC6 : ServerEnv :=
  { now := 0, modelResponse := fun _ => .ok "Hello!", visionResponse := .ok "",
    fileMime := fun _ => none, fileContent := fun _ => .error "",
    saveUserMsgFail := some "disk full", saveBotMsgFail := none,
    saveConvFail := none, imageSaveFail := none,
    descriptionResponse := .ok "", encodeComponent := fun s => s,
    seed := 0, picsumSeed := 0, pollinationsHeadOk := false,
    urlFetchOk := fun _ => false, fsWriteOk := true,
    colorIdx := ⟨0, by decide⟩, dateStr := "1/1/2025" }

set_option maxRecDepth 10000 in
/-- C6 counterexample: the model call resolves with a result but the first
store write rejects, and the handler answers 500 with the generic error — the
model result is not returned to the caller. -/
theorem chat_store_failure_counterexample :
    (chatHandler envC6 emptyDB "hi" "s" none false).1 =
      ChatResponse.serverError genericChatError "disk full" ∧
    ∀ s : String, (chatHandler envC6 emptyDB "hi" "s" none false).1 ≠
      ChatResponse.ok "Hello!" s := by
  have h : (chatHandler envC6 emptyDB "hi" "s" none false).1 =
      ChatResponse.serverError genericChatError "disk full" := by decide
  exact ⟨h, fun s hc => by rw [h] at hc; exact ChatResponse.noConfusion hc⟩

/-- C6 amended: when the model call of the plain chat path succeeds and any of
the three subsequent store writes rejects, the handler maps the rejection to a
500 with the generic error text and the rejection message, and the model
result is not returned. -/
theorem chat_store_failure_maps_to_500 (env : ServerEnv) (db : DBState)
    (message sessionId r e : String) (hm : ¬ message = "")
    (hok : env.modelResponse (promptWithNewTurn (historyPrompt
        (getConversationHistory (createOrGetUser db env.now sessionId).1
          sessionId 10)) message) = .ok r)
    (hfail : env.saveUserMsgFail = some e ∨
      (env.saveUserMsgFail = none ∧ env.saveBotMsgFail = some e) ∨
      (env.saveUserMsgFail = none ∧ env.saveBotMsgFail = none ∧
        env.saveConvFail = some e)) :
    (chatHandler env db message sessionId none false).1 =
      ChatResponse.serverError genericChatError e ∧
    ∀ s : String, (chatHandler env db message sessionId none false).1 ≠
      ChatResponse.ok r s := by
  have hmain : (chatHandler env db message sessionId none false).1 =
      ChatResponse.serverError genericChatError e := by
    rcases hfail with h1 | ⟨h1, h2⟩ | ⟨h1, h2, h3⟩
    · simp [chatHandler, hm, hok, h1]
    · simp [chatHandler, hm, hok, h1, h2]
    · simp [chatHandler, hm, hok, h1, h2, h3]
  refine ⟨hmain, fun s hc => ?_⟩
  rw [hmain] at hc
  exact ChatResponse.noConfusion hc

/-- Witness for the amended C6 at a concrete environment and store. -/
theorem chat_store_failure_maps_to_500_witness :
    (chatHandler envC6 emptyDB "hey" "s" none false).1 =
      ChatResponse.serverError genericChatError "disk full" ∧
    ∀ s : String, (chatHandler envC6 emptyDB "hey" "s" none false).1 ≠
      ChatResponse.ok "Hello!" s :=
  chat_store_failure_maps_to_500 envC6 emptyDB "hey" "s" "Hello!" "disk full"
    (by decide) rfl (Or.inl rfl)

/-! ## C7: what the upload filter rejects -/

set_option maxRecDepth 10000 in
/-- C7 counterexample: a file whose extension .fakepdf is outside the
allow-list is accepted (the unanchored token regex matches pdf inside the
extension) and a file_uploads record is written. -/
theorem upload_allowlist_counterexample :
    specExtAllowed "a.fakepdf" = false ∧
    (uploadEndpoint emptyDB 0 "s" "123.fakepdf"
        ⟨"a.fakepdf", "application/pdf", 10⟩).1 =
      UploadResponse.ok 0 "123.fakepdf" "a.fakepdf" 10 "application/pdf"
        "s" ∧
    (uploadEndpoint emptyDB 0 "s" "123.fakepdf"
        ⟨"a.fakepdf", "application/pdf", 10⟩).2.file_uploads =
      [{ id := 0, session_id := "s", filename := "123.fakepdf",
         original_name := "a.fakepdf", file_path := "uploads/123.fakepdf",
         file_size := 10, mime_type := "application/pdf",
         upload_timestamp := 0 }] := by
  refine ⟨by decide, by decide, by decide⟩

/-- C7 amended: every upload over the 10 MB cap, and every upload for which
the token regex matches neither inside the extension nor inside the mime type,
is rejected with no file_uploads record written; the regex is an unanchored
substring match, so membership of the extension itself in the allow-list is
not required for acceptance. -/
theorem upload_rejected_before_storage (db : DBState) (now : Nat)
    (sessionId storedName : String) (file : UploadedFile)
    (h : fileSizeLimit < file.size ∨
      fileFilterAccepts file.originalname file.mimetype = false) :
    (∃ e, (uploadEndpoint db now sessionId storedName file).1 =
      UploadResponse.rejected e) ∧
    (uploadEndpoint db now sessionId storedName file).2 = db := by
  by_cases hf : fileFilterAccepts file.originalname file.mimetype = false
  · exact ⟨⟨"Only images, text files, and documents are allowed!",
      by simp [uploadEndpoint, hf]⟩, by simp [uploadEndpoint, hf]⟩
  · have hsize : fileSizeLimit < file.size := by
      rcases h with h | h
      · exact h
      · exact absurd h hf
    exact ⟨⟨"File too large", by simp [uploadEndpoint, hf, hsize]⟩,
      by simp [uploadEndpoint, hf, hsize]⟩

/-- Witness for the amended C7: an 10485761-byte png upload is rejected and
the store is unchanged. -/
theorem upload_rejected_before_storage_witness :
    (∃ e, (uploadEndpoint emptyDB 0 "s" "n.png"
      ⟨"a.png", "image/png", 10485761⟩).1 = UploadResponse.rejected e) ∧
    (uploadEndpoint emptyDB 0 "s" "n.png"
      ⟨"a.png", "image/png", 10485761⟩).2 = emptyDB :=
  upload_rejected_before_storage emptyDB 0 "s" "n.png"
    ⟨"a.png", "image/png", 10485761⟩ (Or.inl (by decide))

/-! ## C8: exporting an empty session -/

/-- C8: exporting a session with no stored messages and no uploaded files
succeeds with an empty conversations list and messageCount zero. -/
theorem export_empty_session (db : DBState) (sid d : String)
    (h1 : ∀ m ∈ db.chat_messages, m.session_id ≠ sid)
    (h2 : ∀ f ∈ db.file_uploads, f.session_id ≠ sid) :
    exportEndpoint db sid d = ExportResponse.ok
      { sessionId := sid, exportDate := d, messageCount := 0, fileCount := 0,
        conversations := [], uploadedFiles := [] } := by
  have hm : db.chat_messages.filter (fun m => m.session_id == sid) = [] :=
    List.filter_eq_nil_iff.mpr (by intro a ha; simpa using h1 a ha)
  have hf : db.file_uploads.filter (fun f => f.session_id == sid) = [] :=
    List.filter_eq_nil_iff.mpr (by intro a ha; simpa using h2 a ha)
  simp [exportEndpoint, getConversationHistory, getSessionFiles, hm, hf]

/-- Store used to witness C8: rows exist, but none for the exported session. -/
def dbC8 : DBState :=
  ⟨[⟨0, "t", 0, 0⟩], [], [⟨1, "t", "user", "x", 1⟩],
   [⟨2, "t", "f.txt", "o.txt", "uploads/f.txt", 3, "text/plain", 1⟩],
   [], 1, 0, 2, 3, 0⟩

/-- Witness for C8 at a concrete store. -/
theorem export_empty_session_witness :
    exportEndpoint dbC8 "s" "2025-01-01" = ExportResponse.ok
      { sessionId := "s", exportDate := "2025-01-01", messageCount := 0,
        fileCount := 0, conversations := [], uploadedFiles := [] } :=
  export_empty_session dbC8 "s" "2025-01-01" (by decide) (by decide)
